import Mathlib

/-!
Shallow embedding of `examples/single_calculations/example_excitation.py`
from the aiida-cp2k repository, together with proofs of the specified
properties of that script.

The script assembles a nested CP2K configuration dictionary, wraps input
files into data nodes, populates a process builder and submits it through
the external AiiDA engine; a small click command line wrapper resolves a
code label and reports a missing code.

Modelling conventions:
- Python dictionaries become association lists of string keys and `CVal`
  values; float literals are inert data in the script (no arithmetic is
  performed on them), so they are embedded as a decimal pair
  `CVal.float m e` denoting `m * 10 ^ e`.
- All interaction with the outside world (the AiiDA database lookup,
  reading files from disk, the engine `run` call) is abstracted into an
  environment `Env` of fallible functions returning `Except Exc`.
- The observable behaviour of a run is an explicit trace of events
  (prints, file reads, builder field assignments, the `run` call) plus a
  final outcome, so that claims about prints, exit statuses, file reads
  and the absence of file writes can be stated directly.
-/

namespace AiidaCp2k

/-- Values of the nested configuration tree passed as `Dict(dict=...)`. -/
inductive CVal where
  | str (s : String)
  | int (n : Int)
  | float (mantissa : Int) (exp10 : Int)
  | bool (b : Bool)
  | list (xs : List CVal)
  | dict (entries : List (String × CVal))

/-- Look a key up in a dictionary value. -/
def CVal.get : CVal → String → Option CVal
  | .dict entries, k => entries.lookup k
  | _, _ => none

/-- Follow a path of keys through nested dictionaries. -/
def CVal.getPath : CVal → List String → Option CVal
  | v, [] => some v
  | v, k :: ks =>
    match v.get k with
    | some w => w.getPath ks
    | none => none

/-- The literal `parameters = Dict(dict={...})` tree assembled by
`example_excitation`, transcribed key for key from the script. -/
def parameters : CVal :=
  .dict [("FORCE_EVAL", .dict [
    ("METHOD", .str "Quickstep"),
    ("PROPERTIES", .dict [
      ("TDDFPT", .dict [
        ("NSTATES", .int 2),
        ("MAX_ITER", .int 50),
        ("CONVERGENCE", .str "[eV] 1.0e-5"),
        ("ADMM_KERNEL_CORRECTION_SYMMETRIC", .bool true)])]),
    ("DFT", .dict [
      ("BASIS_SET_FILE_NAME", .list [.str "BASIS_ccGRB_UZH", .str "BASIS_ADMM_UZH"]),
      ("POTENTIAL_FILE_NAME", .str "POTENTIAL_UZH"),
      ("QS", .dict [
        ("EPS_DEFAULT", .float 1 (-12)),
        ("WF_INTERPOLATION", .str "ps"),
        ("EXTRAPOLATION_ORDER", .int 3)]),
      ("MGRID", .dict [
        ("CUTOFF", .int 900),
        ("REL_CUTOFF", .int 60)]),
      ("AUXILIARY_DENSITY_MATRIX_METHOD", .dict [
        ("METHOD", .str "BASIS_PROJECTION"),
        ("ADMM_PURIFICATION_METHOD", .str "NONE"),
        ("EXCH_SCALING_MODEL", .str "NONE"),
        ("EXCH_CORRECTION_FUNC", .str "NONE")]),
      ("EXCITED_STATES", .dict [
        ("STATE", .int 1)]),
      ("XC", .dict [
        ("XC_FUNCTIONAL", .dict [
          ("GGA_C_PBE", .dict []),
          ("GGA_X_PBE", .dict [
            ("SCALE", .float 75 (-2))])]),
        ("HF", .dict [
          ("FRACTION", .float 25 (-2)),
          ("HF_INFO", .dict []),
          ("INTERACTION_POTENTIAL", .dict [
            ("POTENTIAL_TYPE", .str "TRUNCATED"),
            ("CUTOFF_RADIUS", .float 4 0)]),
          ("SCREENING", .dict [
            ("EPS_SCHWARZ", .float 1 (-10)),
            ("SCREEN_ON_INITIAL_P", .bool false)]),
          ("MEMORY", .dict [
            ("MAX_MEMORY", .int 3000)])])]),
      ("POISSON", .dict [
        ("PERIODIC", .str "NONE"),
        ("PSOLVER", .str "WAVELET")])]),
    ("SUBSYS", .dict [
      ("CELL", .dict [
        ("ABC", .str "14.0 14.0 14.0"),
        ("PERIODIC", .str "NONE")]),
      ("TOPOLOGY", .dict [
        ("CENTER_COORDINATES", .dict [])]),
      ("KIND", .list [
        .dict [
          ("_", .str "H"),
          ("BASIS_SET ORB", .str "ccGRB-D-q1"),
          ("BASIS_SET AUX_FIT", .str "admm-dzp-q1"),
          ("POTENTIAL", .str "GTH-PBE0-q1")],
        .dict [
          ("_", .str "C"),
          ("BASIS_SET ORB", .str "ccGRB-D-q4"),
          ("BASIS_SET AUX_FIT", .str "admm-dzp-q4"),
          ("POTENTIAL", .str "GTH-PBE0-q4")]])])])]

/-- An AiiDA code node, as resolved by `Code.get_from_string`; its
contents are opaque to the script. -/
structure Code where
  pk : Nat
deriving DecidableEq

/-- The atoms object returned by `ase.io.read`; opaque content. -/
structure AseAtoms where
  content : String
deriving DecidableEq

/-- `StructureData(ase=...)`: a structure node wrapping an ase object. -/
structure StructureData where
  ase : AseAtoms
deriving DecidableEq

/-- `SinglefileData(file=path)`: a file node remembering the source path
it was created from and the bytes read from that path. -/
structure SinglefileData where
  source : List String
  content : String
deriving DecidableEq

/-- Exceptions that can arise during a run of the script.
`notExistent` is AiiDA's `NotExistent`; the others stand for the
unhandled failure classes named by the specification. -/
inductive Exc where
  | notExistent
  | fileNotFound (path : List String)
  | malformedConfig (msg : String)
  | engineError (msg : String)
  | other (msg : String)
deriving DecidableEq

/-- The `builder.metadata.options` record populated by the script. -/
structure Options where
  resources : Option (List (String × Int))
  max_wallclock_seconds : Option Int
deriving DecidableEq

/-- The `builder.metadata` record. -/
structure Metadata where
  options : Options
deriving DecidableEq

/-- The process builder returned by `cp2k_code.get_builder()`.  Fields the
script never touches are omitted; every field starts out unset. -/
structure Builder where
  structure_ : Option StructureData
  parameters : Option CVal
  code : Option Code
  file : Option (List (String × SinglefileData))
  metadata : Metadata

/-- `cp2k_code.get_builder()`: a fresh builder with no field set. -/
def Code.get_builder (_ : Code) : Builder :=
  { structure_ := none, parameters := none, code := none, file := none,
    metadata := { options := { resources := none, max_wallclock_seconds := none } } }

/-- Externally observable events of a run of the script. -/
inductive Event where
  | print (s : String)
  | readFile (path : List String)
  | writeFile (path : List String)
  | assign (field : String)
  | runCall (b : Builder)

/-- Whether an event is the engine `run` call. -/
def Event.isRunCall : Event → Bool
  | .runCall _ => true
  | _ => false

/-- Whether an event is a file write. -/
def Event.isWriteFile : Event → Bool
  | .writeFile _ => true
  | _ => false

/-- Whether an event assigns the given builder field. -/
def Event.isAssign (f : String) : Event → Bool
  | .assign g => f == g
  | _ => false

/-- Whether an event is a `run` call whose builder satisfies `p`. -/
def Event.runSatisfies (p : Builder → Bool) : Event → Bool
  | .runCall b => p b
  | _ => false

/-- The path of a file-read event, if any. -/
def Event.readPath : Event → Option (List String)
  | .readFile p => some p
  | _ => none

/-- The file paths read during a trace, in order. -/
def readPaths (evs : List Event) : List (List String) :=
  evs.filterMap Event.readPath

/-- The world the script interacts with: the AiiDA database lookup, the
filesystem reads, and the engine submission.  Each call can fail. -/
structure Env where
  getFromString : String → Except Exc Code
  readAse : List String → Except Exc AseAtoms
  readSingleFile : List String → Except Exc String
  runEngine : Builder → Except Exc Unit

/-- `os.path.join(thisdir, '..', 'files', 'acetylene.xyz')`, relative to
the directory of the script. -/
def structurePath : List String := ["..", "files", "acetylene.xyz"]

/-- Path of the MOLOPT basis-set file. -/
def basisMoloptPath : List String := ["..", "files", "BASIS_MOLOPT"]

/-- Path of the ccGRB basis-set file. -/
def basisGrbPath : List String := ["..", "files", "BASIS_ccGRB_UZH"]

/-- Path of the ADMM basis-set file. -/
def basisAdmmPath : List String := ["..", "files", "BASIS_ADMM_UZH"]

/-- Path of the pseudopotential file. -/
def pseudoPath : List String := ["..", "files", "GTH_POTENTIALS"]

/-- The first message the script prints. -/
def testingMsg : String :=
  "Testing CP2K excited state ENERGY on acetylene (DFT-ADMM)..."

/-- The message printed just before the `run` call. -/
def submittedMsg : String := "Submitted calculation..."

/-- The embedding of `example_excitation(cp2k_code)`: the trace of events
it produces and its outcome.  Failing reads abort the function with the
exception, faithfully to unhandled Python exceptions; the `run` call is
recorded in the trace whether or not the engine raises. -/
def example_excitation (env : Env) (cp2k_code : Code) :
    List Event × Except Exc Unit :=
  let ev1 : List Event := [Event.print testingMsg, Event.readFile structurePath]
  match env.readAse structurePath with
  | .error e => (ev1, .error e)
  | .ok atoms =>
    let structure_ : StructureData := { ase := atoms }
    let ev2 := ev1 ++ [Event.readFile basisMoloptPath]
    match env.readSingleFile basisMoloptPath with
    | .error e => (ev2, .error e)
    | .ok moloptBytes =>
      let basis_file_molopt : SinglefileData :=
        { source := basisMoloptPath, content := moloptBytes }
      let ev3 := ev2 ++ [Event.readFile basisGrbPath]
      match env.readSingleFile basisGrbPath with
      | .error e => (ev3, .error e)
      | .ok grbBytes =>
        let basis_file_grb : SinglefileData :=
          { source := basisGrbPath, content := grbBytes }
        let ev4 := ev3 ++ [Event.readFile basisAdmmPath]
        match env.readSingleFile basisAdmmPath with
        | .error e => (ev4, .error e)
        | .ok admmBytes =>
          let basis_file_admm : SinglefileData :=
            { source := basisAdmmPath, content := admmBytes }
          let ev5 := ev4 ++ [Event.readFile pseudoPath]
          match env.readSingleFile pseudoPath with
          | .error e => (ev5, .error e)
          | .ok pseudoBytes =>
            let pseudo_file : SinglefileData :=
              { source := pseudoPath, content := pseudoBytes }
            let builder0 := cp2k_code.get_builder
            let builder1 := { builder0 with structure_ := some structure_ }
            let builder2 := { builder1 with parameters := some parameters }
            let builder3 := { builder2 with code := some cp2k_code }
            let builder4 := { builder3 with file := some [
              ("basis_molopt", basis_file_molopt),
              ("basis_grb", basis_file_grb),
              ("basis_admm", basis_file_admm),
              ("pseudo", pseudo_file)] }
            let builder5 := { builder4 with metadata := { options := {
              builder4.metadata.options with resources := some [
                ("num_machines", 16),
                ("num_mpiprocs_per_machine", 1)] } } }
            let builder := { builder5 with metadata := { options := {
              builder5.metadata.options with
                max_wallclock_seconds := some (1 * 3 * 60) } } }
            let evAll := ev5 ++ [
              Event.assign "structure",
              Event.assign "parameters",
              Event.assign "code",
              Event.assign "file",
              Event.assign "metadata.options.resources",
              Event.assign "metadata.options.max_wallclock_seconds",
              Event.print submittedMsg,
              Event.runCall builder]
            (evAll,
              match env.runEngine builder with
              | .error e => .error e
              | .ok _ => .ok ())

/-- The apostrophe character, used in the error message of `cli`. -/
def sq : String := Char.toString (Char.ofNat 39)

/-- The f-string printed by `cli` when the code label is unknown. -/
def codeNotFoundMsg (codelabel : String) : String :=
  "The code " ++ sq ++ codelabel ++ sq ++ " does not exist."

/-- How a process invocation ends: a process exit with a status, or an
uncaught exception propagating out of the script. -/
inductive ProcExit where
  | exit (status : Nat)
  | uncaught (e : Exc)
deriving DecidableEq

/-- How the process ends after `example_excitation` returns or raises:
a normal return is an implicit exit with status 0, an exception
propagates uncaught past the trace produced so far. -/
def finishRun (p : List Event × Except Exc Unit) : List Event × ProcExit :=
  match p with
  | (evs, .ok _) => (evs, ProcExit.exit 0)
  | (evs, .error e) => (evs, ProcExit.uncaught e)

/-- The embedding of the `cli` click command on one code label argument:
`Code.get_from_string` inside `try`, with only `NotExistent` handled by
a printed message and `sys.exit(1)`; a normal return exits with 0. -/
def cliRun (env : Env) (codelabel : String) : List Event × ProcExit :=
  match env.getFromString codelabel with
  | .error Exc.notExistent =>
    ([Event.print (codeNotFoundMsg codelabel)], ProcExit.exit 1)
  | .error e => ([], ProcExit.uncaught e)
  | .ok code => finishRun (example_excitation env code)

/-- The builder as populated on the success path of `example_excitation`,
given the values produced by the five file reads. -/
def successBuilder (atoms : AseAtoms) (b1 b2 b3 b4 : String)
    (cp2k_code : Code) : Builder :=
  { structure_ := some { ase := atoms },
    parameters := some parameters,
    code := some cp2k_code,
    file := some [
      ("basis_molopt", { source := basisMoloptPath, content := b1 }),
      ("basis_grb", { source := basisGrbPath, content := b2 }),
      ("basis_admm", { source := basisAdmmPath, content := b3 }),
      ("pseudo", { source := pseudoPath, content := b4 })],
    metadata := { options := {
      resources := some [("num_machines", 16), ("num_mpiprocs_per_machine", 1)],
      max_wallclock_seconds := some (1 * 3 * 60) } } }

/-- The event trace of `example_excitation` on the success path. -/
def successTrace (atoms : AseAtoms) (b1 b2 b3 b4 : String)
    (cp2k_code : Code) : List Event :=
  [Event.print testingMsg,
   Event.readFile structurePath,
   Event.readFile basisMoloptPath,
   Event.readFile basisGrbPath,
   Event.readFile basisAdmmPath,
   Event.readFile pseudoPath,
   Event.assign "structure",
   Event.assign "parameters",
   Event.assign "code",
   Event.assign "file",
   Event.assign "metadata.options.resources",
   Event.assign "metadata.options.max_wallclock_seconds",
   Event.print submittedMsg,
   Event.runCall (successBuilder atoms b1 b2 b3 b4 cp2k_code)]

/-- When all five file reads succeed, `example_excitation` produces the
success trace and its outcome is that of the engine `run` call. -/
theorem example_excitation_success (env : Env) (cp2k_code : Code)
    (atoms : AseAtoms) (b1 b2 b3 b4 : String)
    (h1 : env.readAse structurePath = .ok atoms)
    (h2 : env.readSingleFile basisMoloptPath = .ok b1)
    (h3 : env.readSingleFile basisGrbPath = .ok b2)
    (h4 : env.readSingleFile basisAdmmPath = .ok b3)
    (h5 : env.readSingleFile pseudoPath = .ok b4) :
    example_excitation env cp2k_code =
      (successTrace atoms b1 b2 b3 b4 cp2k_code,
        match env.runEngine (successBuilder atoms b1 b2 b3 b4 cp2k_code) with
        | .error e => .error e
        | .ok _ => .ok ()) := by
  simp only [example_excitation, h1, h2, h3, h4, h5]
  rfl

/-- All builder fields the script assigns are set. -/
def Builder.allSet (b : Builder) : Bool :=
  b.structure_.isSome && b.parameters.isSome && b.code.isSome &&
    b.file.isSome && b.metadata.options.resources.isSome &&
    b.metadata.options.max_wallclock_seconds.isSome

/-- The keys of the builder's file-attachment dictionary, in order. -/
def Builder.fileKeys (b : Builder) : Option (List String) :=
  b.file.map (fun entries => entries.map Prod.fst)

/-- The base names of the files attached to the builder, in order. -/
def Builder.attachedFileNames (b : Builder) : Option (List String) :=
  b.file.map (fun entries => entries.map (fun kv => kv.2.source.getLastD ""))

/-- The literal resource options the specification expects on the
builder: attachment keys, machine counts and wallclock limit. -/
def Builder.resourceOptionsExpected (b : Builder) : Bool :=
  (b.fileKeys == some ["basis_molopt", "basis_grb", "basis_admm", "pseudo"]) &&
    (b.metadata.options.resources ==
      some [("num_machines", (16 : Int)), ("num_mpiprocs_per_machine", (1 : Int))]) &&
    (b.metadata.options.max_wallclock_seconds == some (180 : Int))

/-- C1: in the configuration tree assembled by `example_excitation`, the
excited-state key is present with the literal value 1: the entry
`FORCE_EVAL.DFT.EXCITED_STATES.STATE` of `parameters` equals `1`. -/
theorem excited_state_literal_one :
    parameters.getPath ["FORCE_EVAL", "DFT", "EXCITED_STATES", "STATE"]
      = some (CVal.int 1) := by
  rfl

/-- C6: the assembled `parameters` tree sets the plane-wave cutoff
`FORCE_EVAL.DFT.MGRID.CUTOFF` to the literal 900 and the relative cutoff
`FORCE_EVAL.DFT.MGRID.REL_CUTOFF` to the literal 60. -/
theorem mgrid_cutoff_literals :
    parameters.getPath ["FORCE_EVAL", "DFT", "MGRID", "CUTOFF"]
        = some (CVal.int 900) ∧
      parameters.getPath ["FORCE_EVAL", "DFT", "MGRID", "REL_CUTOFF"]
        = some (CVal.int 60) := by
  exact ⟨rfl, rfl⟩

/-- A concrete code node, for witnesses. -/
def code0 : Code := { pk := 7 }

/-- A concrete environment in which the code lookup, all file reads and
the engine run succeed. -/
def env0 : Env where
  getFromString := fun _ => .ok code0
  readAse := fun _ => .ok { content := "C2H2" }
  readSingleFile := fun _ => .ok "DATA"
  runEngine := fun _ => .ok ()

/-- A concrete environment in which the code lookup raises
`NotExistent`. -/
def envMissing : Env where
  getFromString := fun _ => .error Exc.notExistent
  readAse := fun _ => .ok { content := "C2H2" }
  readSingleFile := fun _ => .ok "DATA"
  runEngine := fun _ => .ok ()

/-- A concrete environment in which the code lookup raises an exception
other than `NotExistent`. -/
def envBoom : Env where
  getFromString := fun _ => .error (Exc.other "boom")
  readAse := fun _ => .ok { content := "C2H2" }
  readSingleFile := fun _ => .ok "DATA"
  runEngine := fun _ => .ok ()

/-- A concrete environment in which the engine `run` call raises, while
the lookup and all reads succeed. -/
def envRunFail : Env where
  getFromString := fun _ => .ok code0
  readAse := fun _ => .ok { content := "C2H2" }
  readSingleFile := fun _ => .ok "DATA"
  runEngine := fun _ => .error (Exc.engineError "boom")

/-- C2: whenever the code lookup raises `NotExistent`, `cli` prints the
error message naming the label and exits with status 1; its trace is
exactly that one print, so `example_excitation` is never entered. -/
theorem cli_unknown_code_prints_and_exits_one (env : Env) (codelabel : String)
    (h : env.getFromString codelabel = .error Exc.notExistent) :
    cliRun env codelabel =
      ([Event.print (codeNotFoundMsg codelabel)], ProcExit.exit 1) := by
  simp only [cliRun, h]

/-- Witness for C2 at a concrete environment and label. -/
theorem cli_unknown_code_witness :
    cliRun envMissing "does-not-exist" =
      ([Event.print (codeNotFoundMsg "does-not-exist")], ProcExit.exit 1) :=
  cli_unknown_code_prints_and_exits_one envMissing "does-not-exist" rfl

/-- C3: when the five file reads succeed, `example_excitation` invokes
the engine `run` exactly once, the builder of that single call has its
structure, parameters, code, file and resource-option fields all set,
and each of the six builder fields is assigned exactly once before the
`run` call. -/
theorem run_called_once_builder_populated (env : Env) (cp2k_code : Code)
    (atoms : AseAtoms) (b1 b2 b3 b4 : String)
    (h1 : env.readAse structurePath = .ok atoms)
    (h2 : env.readSingleFile basisMoloptPath = .ok b1)
    (h3 : env.readSingleFile basisGrbPath = .ok b2)
    (h4 : env.readSingleFile basisAdmmPath = .ok b3)
    (h5 : env.readSingleFile pseudoPath = .ok b4) :
    ((example_excitation env cp2k_code).1.countP Event.isRunCall = 1) ∧
    ((example_excitation env cp2k_code).1.countP
      (Event.runSatisfies Builder.allSet) = 1) ∧
    (((example_excitation env cp2k_code).1.takeWhile
        (fun e => !e.isRunCall)).countP (Event.isAssign "structure") = 1) ∧
    (((example_excitation env cp2k_code).1.takeWhile
        (fun e => !e.isRunCall)).countP (Event.isAssign "parameters") = 1) ∧
    (((example_excitation env cp2k_code).1.takeWhile
        (fun e => !e.isRunCall)).countP (Event.isAssign "code") = 1) ∧
    (((example_excitation env cp2k_code).1.takeWhile
        (fun e => !e.isRunCall)).countP (Event.isAssign "file") = 1) ∧
    (((example_excitation env cp2k_code).1.takeWhile
        (fun e => !e.isRunCall)).countP
      (Event.isAssign "metadata.options.resources") = 1) ∧
    (((example_excitation env cp2k_code).1.takeWhile
        (fun e => !e.isRunCall)).countP
      (Event.isAssign "metadata.options.max_wallclock_seconds") = 1) := by
  rw [example_excitation_success env cp2k_code atoms b1 b2 b3 b4 h1 h2 h3 h4 h5]
  refine ⟨rfl, rfl, rfl, rfl, rfl, rfl, rfl, rfl⟩

/-- Witness for C3 at a concrete environment whose reads all succeed. -/
theorem run_called_once_witness :
    ((example_excitation env0 code0).1.countP Event.isRunCall = 1) ∧
    ((example_excitation env0 code0).1.countP
      (Event.runSatisfies Builder.allSet) = 1) ∧
    (((example_excitation env0 code0).1.takeWhile
        (fun e => !e.isRunCall)).countP (Event.isAssign "structure") = 1) ∧
    (((example_excitation env0 code0).1.takeWhile
        (fun e => !e.isRunCall)).countP (Event.isAssign "parameters") = 1) ∧
    (((example_excitation env0 code0).1.takeWhile
        (fun e => !e.isRunCall)).countP (Event.isAssign "code") = 1) ∧
    (((example_excitation env0 code0).1.takeWhile
        (fun e => !e.isRunCall)).countP (Event.isAssign "file") = 1) ∧
    (((example_excitation env0 code0).1.takeWhile
        (fun e => !e.isRunCall)).countP
      (Event.isAssign "metadata.options.resources") = 1) ∧
    (((example_excitation env0 code0).1.takeWhile
        (fun e => !e.isRunCall)).countP
      (Event.isAssign "metadata.options.max_wallclock_seconds") = 1) :=
  run_called_once_builder_populated env0 code0 { content := "C2H2" }
    "DATA" "DATA" "DATA" "DATA" rfl rfl rfl rfl rfl

/-- C4: when the code lookup succeeds and the subsequent run (all file
reads and the engine submission) returns normally, `cli` terminates with
exit status 0; the single code-label argument is the `codelabel`
parameter of `cliRun`. -/
theorem cli_success_exits_zero (env : Env) (codelabel : String)
    (cp2k_code : Code) (atoms : AseAtoms) (b1 b2 b3 b4 : String)
    (hc : env.getFromString codelabel = .ok cp2k_code)
    (h1 : env.readAse structurePath = .ok atoms)
    (h2 : env.readSingleFile basisMoloptPath = .ok b1)
    (h3 : env.readSingleFile basisGrbPath = .ok b2)
    (h4 : env.readSingleFile basisAdmmPath = .ok b3)
    (h5 : env.readSingleFile pseudoPath = .ok b4)
    (h6 : env.runEngine (successBuilder atoms b1 b2 b3 b4 cp2k_code) = .ok ()) :
    (cliRun env codelabel).2 = ProcExit.exit 0 := by
  simp only [cliRun, hc,
    example_excitation_success env cp2k_code atoms b1 b2 b3 b4 h1 h2 h3 h4 h5,
    h6, finishRun]

/-- Witness for C4 at a concrete fully succeeding environment. -/
theorem cli_success_witness : (cliRun env0 "cp2k@localhost").2 = ProcExit.exit 0 :=
  cli_success_exits_zero env0 "cp2k@localhost" code0 { content := "C2H2" }
    "DATA" "DATA" "DATA" "DATA" rfl rfl rfl rfl rfl rfl rfl

/-- C5: only `NotExistent` from the code lookup is handled.  Any other
exception raised by the lookup propagates uncaught with nothing printed
and no exit-status conversion, and any exception raised inside
`example_excitation` propagates uncaught, with the trace exactly the one
`example_excitation` produced (no extra message). -/
theorem only_not_existent_handled (env : Env) (codelabel : String)
    (cp2k_code : Code) (e : Exc) (hne : e ≠ Exc.notExistent) :
    (env.getFromString codelabel = .error e →
      cliRun env codelabel = ([], ProcExit.uncaught e)) ∧
    (env.getFromString codelabel = .ok cp2k_code →
      (example_excitation env cp2k_code).2 = .error e →
      cliRun env codelabel =
        ((example_excitation env cp2k_code).1, ProcExit.uncaught e)) := by
  constructor
  · intro h
    cases e with
    | notExistent => exact absurd rfl hne
    | fileNotFound p => simp only [cliRun, h]
    | malformedConfig m => simp only [cliRun, h]
    | engineError m => simp only [cliRun, h]
    | other m => simp only [cliRun, h]
  · intro hc herr
    simp only [cliRun, hc]
    rcases hex : example_excitation env cp2k_code with ⟨evs, r⟩
    rw [hex] at herr
    have hr : r = .error e := herr
    subst hr
    rfl

/-- Witness for C5: a lookup failure other than `NotExistent` propagates
uncaught and unprinted, and an engine failure propagates uncaught past
the trace `example_excitation` produced. -/
theorem only_not_existent_handled_witness :
    (cliRun envBoom "cp2k@localhost" = ([], ProcExit.uncaught (Exc.other "boom"))) ∧
    (cliRun envRunFail "cp2k@localhost" =
      ((example_excitation envRunFail code0).1,
        ProcExit.uncaught (Exc.engineError "boom"))) :=
  ⟨(only_not_existent_handled envBoom "cp2k@localhost" code0 (Exc.other "boom")
      (by decide)).1 rfl,
   (only_not_existent_handled envRunFail "cp2k@localhost" code0
      (Exc.engineError "boom") (by decide)).2 rfl rfl⟩

/-- C7: on a run in which the reads succeed, the file paths read are
exactly the five fixed paths relative to the script directory: the
acetylene geometry and the four basis/pseudopotential files, and no
others. -/
theorem inputs_read_from_fixed_paths (env : Env) (cp2k_code : Code)
    (atoms : AseAtoms) (b1 b2 b3 b4 : String)
    (h1 : env.readAse structurePath = .ok atoms)
    (h2 : env.readSingleFile basisMoloptPath = .ok b1)
    (h3 : env.readSingleFile basisGrbPath = .ok b2)
    (h4 : env.readSingleFile basisAdmmPath = .ok b3)
    (h5 : env.readSingleFile pseudoPath = .ok b4) :
    readPaths (example_excitation env cp2k_code).1 =
      [structurePath, basisMoloptPath, basisGrbPath, basisAdmmPath,
        pseudoPath] := by
  rw [example_excitation_success env cp2k_code atoms b1 b2 b3 b4 h1 h2 h3 h4 h5]
  rfl

/-- Witness for C7 at a concrete environment whose reads all succeed. -/
theorem inputs_read_witness :
    readPaths (example_excitation env0 code0).1 =
      [structurePath, basisMoloptPath, basisGrbPath, basisAdmmPath,
        pseudoPath] :=
  inputs_read_from_fixed_paths env0 code0 { content := "C2H2" }
    "DATA" "DATA" "DATA" "DATA" rfl rfl rfl rfl rfl

/-- On every run, whatever the environment does, the trace of
`example_excitation` contains no file-write event. -/
theorem ex_no_write (env : Env) (cp2k_code : Code) :
    (example_excitation env cp2k_code).1.countP Event.isWriteFile = 0 := by
  simp only [example_excitation]
  rcases env.readAse structurePath with e | atoms
  · rfl
  · rcases env.readSingleFile basisMoloptPath with e | r1
    · rfl
    · rcases env.readSingleFile basisGrbPath with e | r2
      · rfl
      · rcases env.readSingleFile basisAdmmPath with e | r3
        · rfl
        · rcases env.readSingleFile pseudoPath with e | r4
          · rfl
          · rfl

/-- Finishing a run neither adds nor removes file-write events. -/
theorem finishRun_no_write (p : List Event × Except Exc Unit)
    (h : p.1.countP Event.isWriteFile = 0) :
    (finishRun p).1.countP Event.isWriteFile = 0 := by
  rcases p with ⟨evs, r⟩
  cases r
  · exact h
  · exact h

/-- On every run, whatever the environment does, the trace of `cli`
contains no file-write event. -/
theorem cli_no_write (env : Env) (codelabel : String) :
    (cliRun env codelabel).1.countP Event.isWriteFile = 0 := by
  rcases hg : env.getFromString codelabel with e | c
  · cases e <;> simp only [cliRun, hg] <;> rfl
  · simp only [cliRun, hg]
    exact finishRun_no_write _ (ex_no_write env c)

/-- C8: the script performs no file writes: for every environment, code
and label, neither the trace of `example_excitation` nor the trace of
`cli` contains a file-write event; the only events are prints, reads,
builder assignments and the engine `run` call. -/
theorem no_file_writes (env : Env) (cp2k_code : Code) (codelabel : String) :
    (example_excitation env cp2k_code).1.countP Event.isWriteFile = 0 ∧
      (cliRun env codelabel).1.countP Event.isWriteFile = 0 :=
  ⟨ex_no_write env cp2k_code, cli_no_write env codelabel⟩

/-- C9: the file names referenced in the parameters tree do not match
the files attached to the builder: `BASIS_SET_FILE_NAME` lists only the
ccGRB and ADMM basis files, omitting the attached `BASIS_MOLOPT`, and
`POTENTIAL_FILE_NAME` is `POTENTIAL_UZH` while the attached
pseudopotential file is `GTH_POTENTIALS`. -/
theorem attached_files_mismatch_parameters (env : Env) (cp2k_code : Code)
    (atoms : AseAtoms) (b1 b2 b3 b4 : String)
    (h1 : env.readAse structurePath = .ok atoms)
    (h2 : env.readSingleFile basisMoloptPath = .ok b1)
    (h3 : env.readSingleFile basisGrbPath = .ok b2)
    (h4 : env.readSingleFile basisAdmmPath = .ok b3)
    (h5 : env.readSingleFile pseudoPath = .ok b4) :
    (parameters.getPath ["FORCE_EVAL", "DFT", "BASIS_SET_FILE_NAME"] =
      some (CVal.list [CVal.str "BASIS_ccGRB_UZH", CVal.str "BASIS_ADMM_UZH"])) ∧
    (parameters.getPath ["FORCE_EVAL", "DFT", "POTENTIAL_FILE_NAME"] =
      some (CVal.str "POTENTIAL_UZH")) ∧
    ((example_excitation env cp2k_code).1.countP
      (Event.runSatisfies (fun b => b.attachedFileNames ==
        some ["BASIS_MOLOPT", "BASIS_ccGRB_UZH", "BASIS_ADMM_UZH",
          "GTH_POTENTIALS"])) = 1) ∧
    ("BASIS_MOLOPT" ∉ ["BASIS_ccGRB_UZH", "BASIS_ADMM_UZH"]) ∧
    ("POTENTIAL_UZH" ∉ ["BASIS_MOLOPT", "BASIS_ccGRB_UZH", "BASIS_ADMM_UZH",
      "GTH_POTENTIALS"]) := by
  rw [example_excitation_success env cp2k_code atoms b1 b2 b3 b4 h1 h2 h3 h4 h5]
  refine ⟨rfl, rfl, rfl, by decide, by decide⟩

/-- Witness for C9 at a concrete environment whose reads all succeed. -/
theorem attached_files_mismatch_witness :
    (parameters.getPath ["FORCE_EVAL", "DFT", "BASIS_SET_FILE_NAME"] =
      some (CVal.list [CVal.str "BASIS_ccGRB_UZH", CVal.str "BASIS_ADMM_UZH"])) ∧
    (parameters.getPath ["FORCE_EVAL", "DFT", "POTENTIAL_FILE_NAME"] =
      some (CVal.str "POTENTIAL_UZH")) ∧
    ((example_excitation env0 code0).1.countP
      (Event.runSatisfies (fun b => b.attachedFileNames ==
        some ["BASIS_MOLOPT", "BASIS_ccGRB_UZH", "BASIS_ADMM_UZH",
          "GTH_POTENTIALS"])) = 1) ∧
    ("BASIS_MOLOPT" ∉ ["BASIS_ccGRB_UZH", "BASIS_ADMM_UZH"]) ∧
    ("POTENTIAL_UZH" ∉ ["BASIS_MOLOPT", "BASIS_ccGRB_UZH", "BASIS_ADMM_UZH",
      "GTH_POTENTIALS"]) :=
  attached_files_mismatch_parameters env0 code0 { content := "C2H2" }
    "DATA" "DATA" "DATA" "DATA" rfl rfl rfl rfl rfl

/-- C10: on the success path the single `run` call receives a builder
whose file-attachment dictionary has exactly the keys `basis_molopt`,
`basis_grb`, `basis_admm`, `pseudo`, whose resources are 16 machines
with 1 MPI process per machine, and whose wallclock limit is
`1 * 3 * 60 = 180` seconds. -/
theorem builder_resource_options_literal (env : Env) (cp2k_code : Code)
    (atoms : AseAtoms) (b1 b2 b3 b4 : String)
    (h1 : env.readAse structurePath = .ok atoms)
    (h2 : env.readSingleFile basisMoloptPath = .ok b1)
    (h3 : env.readSingleFile basisGrbPath = .ok b2)
    (h4 : env.readSingleFile basisAdmmPath = .ok b3)
    (h5 : env.readSingleFile pseudoPath = .ok b4) :
    ((example_excitation env cp2k_code).1.countP Event.isRunCall = 1) ∧
    ((example_excitation env cp2k_code).1.countP
      (Event.runSatisfies Builder.resourceOptionsExpected) = 1) ∧
    (1 * 3 * 60 = 180) := by
  rw [example_excitation_success env cp2k_code atoms b1 b2 b3 b4 h1 h2 h3 h4 h5]
  refine ⟨rfl, rfl, rfl⟩

/-- Witness for C10 at a concrete environment whose reads all succeed. -/
theorem builder_resource_options_witness :
    ((example_excitation env0 code0).1.countP Event.isRunCall = 1) ∧
    ((example_excitation env0 code0).1.countP
      (Event.runSatisfies Builder.resourceOptionsExpected) = 1) ∧
    (1 * 3 * 60 = 180) :=
  builder_resource_options_literal env0 code0 { content := "C2H2" }
    "DATA" "DATA" "DATA" "DATA" rfl rfl rfl rfl rfl

end AiidaCp2k
